import Mathlib

/-!
Verification of the KNX USB HID framing layer of this repository.

The file shallowly embeds `src/xknx/usb/knx_hid_frame.py`: Python `bytes`
values become `List Nat` (each entry below 256 when well formed), Python
classes become structures, and the dual `from_data` / `from_knx`
constructors become Lean functions on those structures.  Decode paths that
can raise a Python exception (`IndexError` from out-of-range indexing,
`ValueError` from an enumeration constructor applied to an unmapped
integer, `AttributeError` from calling a method on `None`) are embedded in
the `Except PyErr` monad; paths that cannot raise stay pure.

The repository's modules `xknx/usb/knx_hid_datatypes.py` (the
`SequenceNumber`, `PacketType`, `ProtocolID` and `EMIID` enumerations) and
`xknx/usb/knx_hid_transfer.py` (the KNX USB transfer protocol header and
body) are not part of the provided sources; the definitions for them below
are modelled from the specification and are marked as such in their doc
comments.
-/

/-- Byte strings are modelled as lists of naturals; a well-formed byte is
below 256. -/
abbrev Bytes := List Nat

/-- Python exceptions that the embedded decode and encode paths can raise. -/
inductive PyErr where
  | indexError
  | valueError
  | attributeError
deriving DecidableEq

/-- Python indexing `data[i]` on a bytes object: returns the byte, or raises
`IndexError` when the index is out of range. -/
def pyIndex (data : Bytes) (i : Nat) : Except PyErr Nat :=
  if h : i < data.length then .ok (data.get ⟨i, h⟩) else .error .indexError

/-- Modelled from the spec: the `SequenceNumber` enumeration of the missing
module `xknx/usb/knx_hid_datatypes.py`.  Sequence numbers 1..5 are the
defined variants; value 0 is reserved and values 6..15 are unmapped
("sequence number 0 is always rejected as invalid; sequence numbers 1-5 are
always accepted; values 6-15 are rejected"). -/
inductive SequenceNumber where
  | first_packet
  | second_packet
  | third_packet
  | fourth_packet
  | fifth_packet
deriving DecidableEq

/-- Integer value of a `SequenceNumber` variant. -/
def SequenceNumber.value : SequenceNumber → Nat
  | .first_packet => 1
  | .second_packet => 2
  | .third_packet => 3
  | .fourth_packet => 4
  | .fifth_packet => 5

/-- Modelled from the spec: the integer-to-variant mapping of the
`SequenceNumber` enumeration; an unmapped integer has no variant (in Python
the enumeration constructor raises `ValueError` there). -/
def SequenceNumber.ofValue : Nat → Option SequenceNumber
  | 1 => some .first_packet
  | 2 => some .second_packet
  | 3 => some .third_packet
  | 4 => some .fourth_packet
  | 5 => some .fifth_packet
  | _ => none

/-- Modelled from the spec: the `PacketType` enumeration of the missing
module `xknx/usb/knx_hid_datatypes.py`.  The spec describes the low nibble
of the packet-info byte as a start/partial/end packet tag; the variants are
the start/partial/end combinations of the KNX HID report packet types
(3.4.1.2.3): 0x3 start and end (single packet), 0x4 partial, 0x5 start and
partial, 0x6 partial and end.  Other values are unmapped. -/
inductive PacketType where
  | all_data
  | part_data
  | start_part
  | end_part
deriving DecidableEq

/-- Integer value of a `PacketType` variant. -/
def PacketType.value : PacketType → Nat
  | .all_data => 3
  | .part_data => 4
  | .start_part => 5
  | .end_part => 6

/-- Modelled from the spec: the integer-to-variant mapping of the
`PacketType` enumeration; an unmapped integer has no variant. -/
def PacketType.ofValue : Nat → Option PacketType
  | 3 => some .all_data
  | 4 => some .part_data
  | 5 => some .start_part
  | 6 => some .end_part
  | _ => none

/-- Modelled from the spec: the `ProtocolID` enumeration of the missing
module `xknx/usb/knx_hid_datatypes.py` (closed set of small integers; the
KNX tunnelling protocol and the bus access server feature service). -/
inductive ProtocolID where
  | knx_tunnel
  | bus_access_server
deriving DecidableEq

/-- Integer value of a `ProtocolID` variant. -/
def ProtocolID.value : ProtocolID → Nat
  | .knx_tunnel => 1
  | .bus_access_server => 15

/-- Modelled from the spec: integer-to-variant mapping of `ProtocolID`. -/
def ProtocolID.ofValue : Nat → Option ProtocolID
  | 1 => some .knx_tunnel
  | 15 => some .bus_access_server
  | _ => none

/-- Modelled from the spec: the `EMIID` enumeration of the missing module
`xknx/usb/knx_hid_datatypes.py` (EMI1, EMI2 and common EMI). -/
inductive EMIID where
  | emi1
  | emi2
  | common_emi
deriving DecidableEq

/-- Integer value of an `EMIID` variant. -/
def EMIID.value : EMIID → Nat
  | .emi1 => 1
  | .emi2 => 2
  | .common_emi => 3

/-- Modelled from the spec: integer-to-variant mapping of `EMIID`. -/
def EMIID.ofValue : Nat → Option EMIID
  | 1 => some .emi1
  | 2 => some .emi2
  | 3 => some .common_emi
  | _ => none

/-- Construction data for `PacketInfo.from_data` (class `PacketInfoData`). -/
structure PacketInfoData where
  sequence_number : SequenceNumber
  packet_type : PacketType
deriving DecidableEq

/-- The packet-info byte of the KNX HID report header (class `PacketInfo`):
high nibble sequence number, low nibble packet type.  A bare instance has
both fields unset (`None`). -/
structure PacketInfo where
  sequence_number : Option SequenceNumber
  packet_type : Option PacketType
deriving DecidableEq

/-- Embeds `PacketInfo.from_data`. -/
def PacketInfo.from_data (d : PacketInfoData) : PacketInfo :=
  { sequence_number := some d.sequence_number, packet_type := some d.packet_type }

/-- Embeds `PacketInfo.from_knx` / `PacketInfo._init`: anything other than
exactly one byte is logged and leaves both fields unset; otherwise the byte
is split into nibbles, each mapped through its enumeration constructor,
which raises `ValueError` on an unmapped value. -/
def PacketInfo.from_knx (data : Bytes) : Except PyErr PacketInfo :=
  match data with
  | [b] =>
    match SequenceNumber.ofValue (b / 16), PacketType.ofValue (b % 16) with
    | some sn, some pt => .ok { sequence_number := some sn, packet_type := some pt }
    | none, _ => .error .valueError
    | some _, none => .error .valueError
  | _ => .ok { sequence_number := none, packet_type := none }

/-- Embeds `PacketInfo.to_knx`: `struct.pack` of the combined byte when both
fields are truthy, the empty byte string otherwise.  Per the spec's design
note, truthiness of an enumeration member is value-based, so a zero-valued
member would count as unset; `None` counts as unset. -/
def PacketInfo.to_knx (p : PacketInfo) : Bytes :=
  match p.sequence_number, p.packet_type with
  | some sn, some pt =>
    if sn.value != 0 && pt.value != 0 then [sn.value * 16 + pt.value] else []
  | _, _ => []

/-- Construction data for `KNXHIDReportHeader.from_data` (class
`KNXHIDReportHeaderData`). -/
structure KNXHIDReportHeaderData where
  packet_info : PacketInfo
  data_length : Nat
deriving DecidableEq

/-- The 3-byte KNX HID report header (class `KNXHIDReportHeader`). -/
structure KNXHIDReportHeader where
  report_id : Nat
  packet_info : Option PacketInfo
  data_length : Nat
  is_valid : Bool
deriving DecidableEq

/-- The constant `_max_expected_data_length` of the header and the maximum
of the data-length field: 61 octets. -/
def max_expected_data_length : Nat := 61

/-- Embeds `KNXHIDReportHeader.from_data`: report id fixed to 1, packet
info stored, and the data length accepted (making the header valid) only
when it does not exceed 61. -/
def KNXHIDReportHeader.from_data (d : KNXHIDReportHeaderData) : KNXHIDReportHeader :=
  if d.data_length ≤ max_expected_data_length then
    { report_id := 1, packet_info := some d.packet_info,
      data_length := d.data_length, is_valid := true }
  else
    { report_id := 1, packet_info := some d.packet_info,
      data_length := 0, is_valid := false }

/-- Embeds `KNXHIDReportHeader.from_knx` / `_init`.  The length guard only
rejects inputs longer than 61 bytes (returning the bare-instance state of
`__init__`); otherwise byte 0 is read as the report id, bytes `[1:2]` are
decoded as the packet info and byte 2 as the data length, and the header is
valid exactly when the report id equals 1.  Note that indexing byte 0 or
byte 2 of an input shorter than 3 bytes raises `IndexError`. -/
def KNXHIDReportHeader.from_knx (data : Bytes) : Except PyErr KNXHIDReportHeader :=
  if data.length > max_expected_data_length then
    .ok { report_id := 1, packet_info := none, data_length := 0, is_valid := false }
  else do
    let rid ← pyIndex data 0
    let pi ← PacketInfo.from_knx ((data.drop 1).take 1)
    let dl ← pyIndex data 2
    .ok { report_id := rid, packet_info := some pi, data_length := dl,
          is_valid := rid == 1 }

/-- Embeds the `struct.pack` format `1s`: the argument byte string is padded
with a zero byte, or truncated, to exactly one byte. -/
def pack1s (b : Bytes) : Bytes := (b ++ [0]).take 1

/-- Embeds `KNXHIDReportHeader.to_knx`: `struct.pack "<B1sB"` of report id,
packed packet info and data length when the header is valid, the empty byte
string otherwise.  When the header is valid but carries no packet info
(unreachable through the two constructors) Python raises
`AttributeError`. -/
def KNXHIDReportHeader.to_knx (h : KNXHIDReportHeader) : Except PyErr Bytes :=
  if h.is_valid then
    match h.packet_info with
    | some pi => .ok ([h.report_id] ++ pack1s pi.to_knx ++ [h.data_length])
    | none => .error .attributeError
  else .ok []

/-- Modelled from the spec: construction data of the missing class
`KNXUSBTransferProtocolBodyData` of `xknx/usb/knx_hid_transfer.py` (the
opaque EMI payload bytes and the partial flag, named `cont` here). -/
structure KNXUSBTransferProtocolBodyData where
  data : Bytes
  cont : Bool
deriving DecidableEq

/-- Modelled from the spec: the missing class `KNXUSBTransferProtocolBody`
of `xknx/usb/knx_hid_transfer.py`.  The payload is an opaque byte blob. -/
structure KNXUSBTransferProtocolBody where
  data : Bytes
  is_valid : Bool
deriving DecidableEq

/-- Modelled from the spec: the payload capacity of a report body — up to 53
payload bytes after the 8-byte transfer header in a start packet, up to 61
payload bytes in a continuation packet (`cont = true`). -/
def KNXUSBTransferProtocolBody.max_size (cont : Bool) : Nat :=
  if cont then 61 else 53

/-- Length of the stored payload bytes. -/
def KNXUSBTransferProtocolBody.length (b : KNXUSBTransferProtocolBody) : Nat :=
  b.data.length

/-- Modelled from the spec: `KNXUSBTransferProtocolBody.from_data` builds the
payload sub-object; it is valid when the payload fits the capacity of the
chosen packet kind. -/
def KNXUSBTransferProtocolBody.from_data (d : KNXUSBTransferProtocolBodyData) :
    KNXUSBTransferProtocolBody :=
  { data := d.data,
    is_valid := decide (d.data.length ≤ KNXUSBTransferProtocolBody.max_size d.cont) }

/-- Modelled from the spec: `KNXUSBTransferProtocolBody.from_knx` stores the
given bytes as the opaque payload; parsing an opaque blob always
succeeds. -/
def KNXUSBTransferProtocolBody.from_knx (data : Bytes) : KNXUSBTransferProtocolBody :=
  { data := data, is_valid := true }

/-- Modelled from the spec: `KNXUSBTransferProtocolBody.to_knx` emits the
payload zero-padded to the capacity of the chosen packet kind ("unused
bytes shall be filled with 00h"). -/
def KNXUSBTransferProtocolBody.to_knx (b : KNXUSBTransferProtocolBody) (cont : Bool) : Bytes :=
  b.data ++ List.replicate (KNXUSBTransferProtocolBody.max_size cont - b.data.length) 0

/-- Modelled from the spec: construction data of the missing class
`KNXUSBTransferProtocolHeaderData` of `xknx/usb/knx_hid_transfer.py`. -/
structure KNXUSBTransferProtocolHeaderData where
  body_length : Nat
  protocol_id : ProtocolID
  emi_id : EMIID
deriving DecidableEq

/-- Modelled from the spec: the missing class `KNXUSBTransferProtocolHeader`
of `xknx/usb/knx_hid_transfer.py` — the 8-byte transfer protocol header:
protocol version (1 byte), header length (1 byte, fixed 8), body length
(2 bytes), protocol id (1 byte), EMI id (1 byte), manufacturer code
(2 bytes). -/
structure KNXUSBTransferProtocolHeader where
  protocol_version : Nat
  header_length : Nat
  body_length : Nat
  protocol_id : Option ProtocolID
  emi_id : Option EMIID
  manufacturer_code : Nat
  is_valid : Bool
deriving DecidableEq

/-- Modelled from the spec: `KNXUSBTransferProtocolHeader.from_data` builds
the header from the payload length, protocol id and EMI id; version 0,
header length 8 and manufacturer code 0 are fixed. -/
def KNXUSBTransferProtocolHeader.from_data (d : KNXUSBTransferProtocolHeaderData) :
    KNXUSBTransferProtocolHeader :=
  { protocol_version := 0, header_length := 8, body_length := d.body_length,
    protocol_id := some d.protocol_id, emi_id := some d.emi_id,
    manufacturer_code := 0, is_valid := true }

/-- Modelled from the spec: `KNXUSBTransferProtocolHeader.from_knx` parses
exactly 8 bytes.  Unmapped protocol-id or EMI-id values are enumeration
errors and leave the header invalid (the spec's propagation policy:
recovered locally, reflected in the valid flag); a header-length field other
than 8 is likewise a parse failure, since the transfer header is by
definition the 8-byte structure. -/
def KNXUSBTransferProtocolHeader.from_knx (data : Bytes) : KNXUSBTransferProtocolHeader :=
  match data with
  | [b0, b1, b2, b3, b4, b5, b6, b7] =>
    let pid := ProtocolID.ofValue b4
    let emi := EMIID.ofValue b5
    { protocol_version := b0, header_length := b1, body_length := b2 * 256 + b3,
      protocol_id := pid, emi_id := emi, manufacturer_code := b6 * 256 + b7,
      is_valid := pid.isSome && emi.isSome && (b1 == 8) }
  | _ =>
    { protocol_version := 0, header_length := 0, body_length := 0,
      protocol_id := none, emi_id := none, manufacturer_code := 0, is_valid := false }

/-- Modelled from the spec: `KNXUSBTransferProtocolHeader.to_knx` emits the
8 header bytes when the header is valid (body length and manufacturer code
as two bytes each, high byte first), nothing otherwise. -/
def KNXUSBTransferProtocolHeader.to_knx (h : KNXUSBTransferProtocolHeader) : Bytes :=
  if h.is_valid then
    [h.protocol_version, h.header_length, h.body_length / 256, h.body_length % 256,
     (h.protocol_id.map ProtocolID.value).getD 0, (h.emi_id.map EMIID.value).getD 0,
     h.manufacturer_code / 256, h.manufacturer_code % 256]
  else []

/-- Construction data for `KNXHIDReportBody.from_data` (class
`KNXHIDReportBodyData`); `cont` is the source's `partial` flag. -/
structure KNXHIDReportBodyData where
  protocol_id : ProtocolID
  emi_id : EMIID
  emi_data : Bytes
  cont : Bool
deriving DecidableEq

/-- The 61-byte KNX HID report body (class `KNXHIDReportBody`); `cont` is
the source's `_partial` field. -/
structure KNXHIDReportBody where
  transfer_protocol_header : Option KNXUSBTransferProtocolHeader
  transfer_protocol_body : Option KNXUSBTransferProtocolBody
  is_valid : Bool
  cont : Bool
deriving DecidableEq

/-- The constant `_max_size` of the report body: 61 octets. -/
def report_body_max_size : Nat := 61

/-- Embeds `KNXHIDReportBody.from_data`.  The transfer protocol body is
always built; a transfer protocol header only for a non-partial body, whose
validity is then the conjunction of both parts.  Note that `from_data`
never assigns the `_partial` field, which therefore keeps its `__init__`
value `False`. -/
def KNXHIDReportBody.from_data (d : KNXHIDReportBodyData) : KNXHIDReportBody :=
  let body := KNXUSBTransferProtocolBody.from_data { data := d.emi_data, cont := d.cont }
  if d.cont then
    { transfer_protocol_header := none, transfer_protocol_body := some body,
      is_valid := body.is_valid, cont := false }
  else
    let hdr := KNXUSBTransferProtocolHeader.from_data
      { body_length := body.length, protocol_id := d.protocol_id, emi_id := d.emi_id }
    { transfer_protocol_header := some hdr, transfer_protocol_body := some body,
      is_valid := hdr.is_valid && body.is_valid, cont := false }

/-- Embeds `KNXHIDReportBody.from_knx` / `_init`: anything other than
exactly 61 bytes is logged and leaves the bare-instance state (both parts
absent, invalid).  A partial body treats all 61 bytes as payload; a
non-partial body parses bytes `[:8]` as the transfer protocol header and
bytes `[8:]` as the payload. -/
def KNXHIDReportBody.from_knx (data : Bytes) (cont : Bool) : KNXHIDReportBody :=
  if data.length ≠ report_body_max_size then
    { transfer_protocol_header := none, transfer_protocol_body := none,
      is_valid := false, cont := false }
  else if cont then
    let body := KNXUSBTransferProtocolBody.from_knx data
    { transfer_protocol_header := none, transfer_protocol_body := some body,
      is_valid := body.is_valid, cont := cont }
  else
    let hdr := KNXUSBTransferProtocolHeader.from_knx (data.take 8)
    let body := KNXUSBTransferProtocolBody.from_knx (data.drop 8)
    { transfer_protocol_header := some hdr, transfer_protocol_body := some body,
      is_valid := hdr.is_valid && body.is_valid, cont := cont }

/-- Embeds `KNXHIDReportBody.to_knx`: header bytes followed by payload bytes
when both parts are present, the empty byte string otherwise. -/
def KNXHIDReportBody.to_knx (b : KNXHIDReportBody) : Bytes :=
  match b.transfer_protocol_header, b.transfer_protocol_body with
  | some th, some tb => th.to_knx ++ tb.to_knx b.cont
  | _, _ => []

/-- Embeds the `KNXHIDReportBody.length` property: the payload length for a
partial body, header length plus payload length when both parts are
present, 0 otherwise. -/
def KNXHIDReportBody.length (b : KNXHIDReportBody) : Nat :=
  match b.cont, b.transfer_protocol_header, b.transfer_protocol_body with
  | true, _, some tb => tb.length
  | _, some th, some tb => th.header_length + tb.length
  | _, _, _ => 0

/-- Construction data for `KNXHIDFrame.from_data` (class `KNXHIDFrameData`). -/
structure KNXHIDFrameData where
  packet_info : PacketInfo
  hid_report_body_data : KNXHIDReportBodyData
deriving DecidableEq

/-- One 64-byte KNX HID report frame (class `KNXHIDFrame`). -/
structure KNXHIDFrame where
  report_header : Option KNXHIDReportHeader
  report_body : Option KNXHIDReportBody
  is_valid : Bool
  cont : Bool
deriving DecidableEq

/-- The constant `_expected_byte_count` of the frame: 64 octets. -/
def expected_byte_count : Nat := 64

/-- Embeds `KNXHIDFrame.from_data`: the body is built first (the header
needs its length); for a partial frame only body validity counts. -/
def KNXHIDFrame.from_data (d : KNXHIDFrameData) : KNXHIDFrame :=
  let body := KNXHIDReportBody.from_data d.hid_report_body_data
  let header := KNXHIDReportHeader.from_data
    { packet_info := d.packet_info, data_length := body.length }
  { report_header := some header, report_body := some body,
    cont := d.hid_report_body_data.cont,
    is_valid := if d.hid_report_body_data.cont then body.is_valid
                else header.is_valid && body.is_valid }

/-- Embeds `KNXHIDFrame.from_knx` / `_init`: an input shorter than 64 bytes
only logs a warning and is still processed; the header is decoded from
bytes `[:3]`, the body from bytes `[3:]` with the same partial flag, and
validity is the conjunction of both.  An exception raised by the header
decode propagates. -/
def KNXHIDFrame.from_knx (data : Bytes) (cont : Bool) : Except PyErr KNXHIDFrame := do
  let header ← KNXHIDReportHeader.from_knx (data.take 3)
  let body := KNXHIDReportBody.from_knx (data.drop 3) cont
  .ok { report_header := some header, report_body := some body,
        is_valid := header.is_valid && body.is_valid, cont := cont }

/-- Embeds `KNXHIDFrame.to_knx`: header bytes followed by body bytes.  On a
bare instance (unreachable through the two constructors) Python raises
`AttributeError`. -/
def KNXHIDFrame.to_knx (f : KNXHIDFrame) : Except PyErr Bytes :=
  match f.report_header, f.report_body with
  | some h, some b => do
    let hb ← h.to_knx
    .ok (hb ++ b.to_knx)
  | _, _ => .error .attributeError

/-! Helper lemmas shared by the claim theorems. -/

theorem seq_ofValue_value (s : SequenceNumber) :
    SequenceNumber.ofValue s.value = some s := by cases s <;> rfl

theorem pt_ofValue_value (t : PacketType) :
    PacketType.ofValue t.value = some t := by cases t <;> rfl

theorem pid_ofValue_value (p : ProtocolID) :
    ProtocolID.ofValue p.value = some p := by cases p <;> rfl

theorem emi_ofValue_value (e : EMIID) :
    EMIID.ofValue e.value = some e := by cases e <;> rfl

theorem nibble_div (s : SequenceNumber) (t : PacketType) :
    (s.value * 16 + t.value) / 16 = s.value := by cases s <;> cases t <;> decide

theorem nibble_mod (s : SequenceNumber) (t : PacketType) :
    (s.value * 16 + t.value) % 16 = t.value := by cases s <;> cases t <;> decide

theorem nibble_lt (s : SequenceNumber) (t : PacketType) :
    s.value * 16 + t.value < 256 := by cases s <;> cases t <;> decide

theorem KNXHIDReportBody.from_knx_wrong_length {data : Bytes} {cont : Bool}
    (h : data.length ≠ 61) :
    KNXHIDReportBody.from_knx data cont =
      { transfer_protocol_header := none, transfer_protocol_body := none,
        is_valid := false, cont := false } := by
  unfold KNXHIDReportBody.from_knx
  simp [report_body_max_size, h]

theorem KNXHIDReportHeader.from_knx_three {b0 b1 b2 : Nat} {s : SequenceNumber} {t : PacketType}
    (hs : SequenceNumber.ofValue (b1 / 16) = some s)
    (ht : PacketType.ofValue (b1 % 16) = some t) :
    KNXHIDReportHeader.from_knx [b0, b1, b2] =
      .ok { report_id := b0,
            packet_info := some { sequence_number := some s, packet_type := some t },
            data_length := b2, is_valid := b0 == 1 } := by
  unfold KNXHIDReportHeader.from_knx
  simp [max_expected_data_length, pyIndex, PacketInfo.from_knx, hs, ht, bind, Except.bind]

/-! Claim theorems. -/

/-- C4: for every byte input whose length is not exactly 61,
`KNXHIDReportBody.from_knx` (with either partial flag value) still returns
a report body object, and that object is invalid.  (The error logging of
the source is outside the embedding.) -/
theorem C4_body_wrong_length_invalid (data : Bytes) (cont : Bool)
    (h : data.length ≠ 61) :
    (KNXHIDReportBody.from_knx data cont).is_valid = false := by
  rw [KNXHIDReportBody.from_knx_wrong_length h]

theorem C4_body_wrong_length_invalid_witness :
    ([] : Bytes).length ≠ 61 ∧ (KNXHIDReportBody.from_knx [] true).is_valid = false :=
  ⟨by decide, C4_body_wrong_length_invalid [] true (by decide)⟩

/-- C10: for every byte input whose length is not exactly 61, the report
body returned by `KNXHIDReportBody.from_knx` exposes no partially parsed
data: both the transfer protocol header and the transfer protocol body are
absent, its length is 0 and its encoding is the empty byte string. -/
theorem C10_wrong_length_no_partial_state (data : Bytes) (cont : Bool)
    (h : data.length ≠ 61) :
    (KNXHIDReportBody.from_knx data cont).transfer_protocol_header = none ∧
    (KNXHIDReportBody.from_knx data cont).transfer_protocol_body = none ∧
    (KNXHIDReportBody.from_knx data cont).length = 0 ∧
    (KNXHIDReportBody.from_knx data cont).to_knx = [] := by
  rw [KNXHIDReportBody.from_knx_wrong_length h]
  exact ⟨rfl, rfl, rfl, rfl⟩

theorem C10_wrong_length_no_partial_state_witness :
    ([1, 2, 3] : Bytes).length ≠ 61 ∧
    ((KNXHIDReportBody.from_knx [1, 2, 3] false).transfer_protocol_header = none ∧
     (KNXHIDReportBody.from_knx [1, 2, 3] false).transfer_protocol_body = none ∧
     (KNXHIDReportBody.from_knx [1, 2, 3] false).length = 0 ∧
     (KNXHIDReportBody.from_knx [1, 2, 3] false).to_knx = []) :=
  ⟨by decide, C10_wrong_length_no_partial_state [1, 2, 3] false (by decide)⟩

/-- C5: decoding a 61-byte body with the partial flag set never parses a
transfer protocol header — the header field stays absent, the entire
61 bytes become the payload continuation, and validity is exactly the
payload-parse result. -/
theorem C5_continuation_never_parses_header (data : Bytes) (h : data.length = 61) :
    (KNXHIDReportBody.from_knx data true).transfer_protocol_header = none ∧
    (KNXHIDReportBody.from_knx data true).transfer_protocol_body =
      some (KNXUSBTransferProtocolBody.from_knx data) ∧
    (KNXHIDReportBody.from_knx data true).is_valid =
      (KNXUSBTransferProtocolBody.from_knx data).is_valid := by
  unfold KNXHIDReportBody.from_knx
  simp [report_body_max_size, h]

theorem C5_continuation_never_parses_header_witness :
    (List.replicate 61 0 : Bytes).length = 61 ∧
    ((KNXHIDReportBody.from_knx (List.replicate 61 0) true).transfer_protocol_header = none ∧
     (KNXHIDReportBody.from_knx (List.replicate 61 0) true).transfer_protocol_body =
       some (KNXUSBTransferProtocolBody.from_knx (List.replicate 61 0)) ∧
     (KNXHIDReportBody.from_knx (List.replicate 61 0) true).is_valid =
       (KNXUSBTransferProtocolBody.from_knx (List.replicate 61 0)).is_valid) :=
  ⟨by decide, C5_continuation_never_parses_header (List.replicate 61 0) (by decide)⟩

/-- C2: the claim says no decode operation of this layer ever raises; the
code does raise.  `KNXHIDReportHeader.from_knx` applied to the empty byte
string raises `IndexError` when reading byte 0, because the length guard of
`_init` only rejects inputs longer than 61 bytes instead of inputs that are
not exactly 3 bytes. -/
theorem C2_header_decode_raises_on_short_input :
    KNXHIDReportHeader.from_knx [] = .error .indexError := rfl

/-- C3 counterexample: a 3-byte input whose byte 0 is not 0x01 does not
always yield an invalid header — with byte 1 equal to 0x63 the high nibble
is the reserved sequence number 6, the enumeration constructor raises
`ValueError`, and no header is yielded at all. -/
theorem C3_report_id_gate_cex :
    KNXHIDReportHeader.from_knx [0, 99, 0] = .error .valueError := rfl

/-- C3 as amended: for every 3-byte input whose packet-info byte (byte 1)
maps to defined sequence-number and packet-type variants, decoding yields a
header whose validity is exactly the test that byte 0 equals 0x01 — so any
such input with byte 0 different from 0x01 is invalid, and validity holds
only when the report id equals 1. -/
theorem C3_report_id_gate_amended (b0 b1 b2 : Nat) (s : SequenceNumber) (t : PacketType)
    (hb0 : b0 < 256) (hb1 : b1 < 256) (hb2 : b2 < 256)
    (hs : SequenceNumber.ofValue (b1 / 16) = some s)
    (ht : PacketType.ofValue (b1 % 16) = some t) :
    KNXHIDReportHeader.from_knx [b0, b1, b2] =
      .ok { report_id := b0,
            packet_info := some { sequence_number := some s, packet_type := some t },
            data_length := b2, is_valid := b0 == 1 } :=
  KNXHIDReportHeader.from_knx_three hs ht

theorem C3_report_id_gate_amended_witness :
    (0 : Nat) < 256 ∧ (19 : Nat) < 256 ∧ (5 : Nat) < 256 ∧
    SequenceNumber.ofValue (19 / 16) = some .first_packet ∧
    PacketType.ofValue (19 % 16) = some .all_data ∧
    KNXHIDReportHeader.from_knx [0, 19, 5] =
      .ok { report_id := 0,
            packet_info := some { sequence_number := some .first_packet,
                                  packet_type := some .all_data },
            data_length := 5, is_valid := false } :=
  ⟨by decide, by decide, by decide, by decide, by decide,
   C3_report_id_gate_amended 0 19 5 .first_packet .all_data
     (by decide) (by decide) (by decide) (by decide) (by decide)⟩

/-- C8: `KNXHIDReportHeader.from_data` (the construct-for-body path) yields
a valid header exactly when the given body length is at most 61; in
particular body length 61 is valid and body length 62 is not. -/
theorem C8_construct_for_body_ceiling :
    (∀ (pi : PacketInfo) (n : Nat),
      (KNXHIDReportHeader.from_data { packet_info := pi, data_length := n }).is_valid
        = decide (n ≤ 61)) ∧
    (∀ pi : PacketInfo,
      (KNXHIDReportHeader.from_data { packet_info := pi, data_length := 61 }).is_valid = true) ∧
    (∀ pi : PacketInfo,
      (KNXHIDReportHeader.from_data { packet_info := pi, data_length := 62 }).is_valid = false) := by
  refine ⟨fun pi n => ?_, fun pi => rfl, fun pi => rfl⟩
  unfold KNXHIDReportHeader.from_data
  simp only [max_expected_data_length]
  split <;> simp_all

/-- C9: a packet info with both fields set encodes to exactly one byte whose
high nibble is the sequence-number value and whose low nibble is the
packet-type value; with either field unset it encodes to the empty byte
string. -/
theorem C9_packet_info_encode (p : PacketInfo) :
    (∀ (s : SequenceNumber) (t : PacketType),
      p.sequence_number = some s → p.packet_type = some t →
      p.to_knx = [s.value * 16 + t.value] ∧
      s.value * 16 + t.value < 256 ∧
      (s.value * 16 + t.value) / 16 = s.value ∧
      (s.value * 16 + t.value) % 16 = t.value) ∧
    ((p.sequence_number = none ∨ p.packet_type = none) → p.to_knx = []) := by
  obtain ⟨sn, pt⟩ := p
  constructor
  · intro s t hs ht
    simp only at hs ht
    subst hs; subst ht
    exact ⟨by cases s <;> cases t <;> rfl, nibble_lt s t, nibble_div s t, nibble_mod s t⟩
  · intro h
    rcases h with h | h <;> simp only at h <;> subst h
    · rfl
    · cases sn <;> rfl

theorem C9_packet_info_encode_witness :
    PacketInfo.to_knx { sequence_number := some .first_packet, packet_type := some .all_data }
      = [SequenceNumber.value .first_packet * 16 + PacketType.value .all_data] ∧
    SequenceNumber.value .first_packet * 16 + PacketType.value .all_data < 256 ∧
    (SequenceNumber.value .first_packet * 16 + PacketType.value .all_data) / 16
      = SequenceNumber.value .first_packet ∧
    (SequenceNumber.value .first_packet * 16 + PacketType.value .all_data) % 16
      = PacketType.value .all_data :=
  (C9_packet_info_encode
    { sequence_number := some .first_packet, packet_type := some .all_data }).1
    .first_packet .all_data rfl rfl

/-- C6 counterexample: decoding a 63-byte buffer is not always crash-free —
with byte 1 equal to 0x63 the reserved sequence number 6 makes the packet
info enumeration constructor raise `ValueError`, which propagates out of
`KNXHIDFrame.from_knx` instead of producing a best-effort frame. -/
theorem C6_short_frame_cex :
    KNXHIDFrame.from_knx (0 :: 99 :: List.replicate 61 0) false = .error .valueError := rfl

/-- C6 as amended: for every input of at least 3 and fewer than 64 bytes
whose packet-info byte (byte 1) maps to defined sequence-number and
packet-type variants, `KNXHIDFrame.from_knx` produces a frame, decoding the
header from bytes `[0:3]` and the body from bytes `[3:]` with the same
partial flag, and its validity is the conjunction of header validity and
body validity (the body being invalid here, since fewer than 61 bytes
remain).  (The warning logging of the source is outside the embedding.) -/
theorem C6_short_frame_amended (b0 b1 b2 : Nat) (rest : Bytes) (cont : Bool)
    (s : SequenceNumber) (t : PacketType)
    (hlen : rest.length < 61)
    (hs : SequenceNumber.ofValue (b1 / 16) = some s)
    (ht : PacketType.ofValue (b1 % 16) = some t) :
    ∃ hdr : KNXHIDReportHeader,
      KNXHIDReportHeader.from_knx ((b0 :: b1 :: b2 :: rest).take 3) = .ok hdr ∧
      KNXHIDFrame.from_knx (b0 :: b1 :: b2 :: rest) cont =
        .ok { report_header := some hdr,
              report_body := some (KNXHIDReportBody.from_knx ((b0 :: b1 :: b2 :: rest).drop 3) cont),
              is_valid := hdr.is_valid
                && (KNXHIDReportBody.from_knx ((b0 :: b1 :: b2 :: rest).drop 3) cont).is_valid,
              cont := cont } ∧
      hdr.is_valid = (b0 == 1) ∧
      (KNXHIDReportBody.from_knx ((b0 :: b1 :: b2 :: rest).drop 3) cont).is_valid = false := by
  have h3 : (b0 :: b1 :: b2 :: rest).take 3 = [b0, b1, b2] := rfl
  have h4 : (b0 :: b1 :: b2 :: rest).drop 3 = rest := rfl
  have hb : (KNXHIDReportBody.from_knx rest cont).is_valid = false := by
    rw [KNXHIDReportBody.from_knx_wrong_length (Nat.ne_of_lt hlen)]
  refine ⟨_, by rw [h3]; exact KNXHIDReportHeader.from_knx_three hs ht, ?_, rfl, ?_⟩
  · unfold KNXHIDFrame.from_knx
    rw [h3, h4, KNXHIDReportHeader.from_knx_three hs ht]
    rfl
  · rw [h4]; exact hb

theorem C6_short_frame_amended_witness :
    (List.replicate 60 0 : Bytes).length < 61 ∧
    SequenceNumber.ofValue (19 / 16) = some .first_packet ∧
    PacketType.ofValue (19 % 16) = some .all_data ∧
    ∃ hdr : KNXHIDReportHeader,
      KNXHIDReportHeader.from_knx ((0 :: 19 :: 0 :: List.replicate 60 0).take 3) = .ok hdr ∧
      KNXHIDFrame.from_knx (0 :: 19 :: 0 :: List.replicate 60 0) false =
        .ok { report_header := some hdr,
              report_body :=
                some (KNXHIDReportBody.from_knx ((0 :: 19 :: 0 :: List.replicate 60 0).drop 3) false),
              is_valid := hdr.is_valid
                && (KNXHIDReportBody.from_knx
                      ((0 :: 19 :: 0 :: List.replicate 60 0).drop 3) false).is_valid,
              cont := false } ∧
      hdr.is_valid = ((0 : Nat) == 1) ∧
      (KNXHIDReportBody.from_knx ((0 :: 19 :: 0 :: List.replicate 60 0).drop 3) false).is_valid
        = false :=
  ⟨by decide, by decide, by decide,
   C6_short_frame_amended 0 19 0 (List.replicate 60 0) false .first_packet .all_data
     (by decide) (by decide) (by decide)⟩

theorem pack1s_length (b : Bytes) : (pack1s b).length = 1 := by
  cases b <;> rfl

theorem seq_value_bne_zero (s : SequenceNumber) : (s.value != 0) = true := by
  cases s <;> rfl

theorem pt_value_bne_zero (t : PacketType) : (t.value != 0) = true := by
  cases t <;> rfl

theorem KNXUSBTransferProtocolHeader.from_data_to_knx_length
    (d : KNXUSBTransferProtocolHeaderData) :
    (KNXUSBTransferProtocolHeader.from_data d).to_knx.length = 8 := by
  simp [KNXUSBTransferProtocolHeader.from_data, KNXUSBTransferProtocolHeader.to_knx]

theorem KNXUSBTransferProtocolBody.to_knx_length_of_le
    (b : KNXUSBTransferProtocolBody) (cont : Bool)
    (h : b.data.length ≤ KNXUSBTransferProtocolBody.max_size cont) :
    (b.to_knx cont).length = KNXUSBTransferProtocolBody.max_size cont := by
  simp only [KNXUSBTransferProtocolBody.to_knx, List.length_append, List.length_replicate]
  omega

theorem KNXUSBTransferProtocolHeader.from_knx_valid_shape (data : Bytes)
    (hv : (KNXUSBTransferProtocolHeader.from_knx data).is_valid = true) :
    (KNXUSBTransferProtocolHeader.from_knx data).header_length = 8 ∧
    (KNXUSBTransferProtocolHeader.from_knx data).to_knx.length = 8 := by
  rcases data with _ | ⟨b0, _ | ⟨b1, _ | ⟨b2, _ | ⟨b3, _ | ⟨b4, _ | ⟨b5, _ | ⟨b6, _ | ⟨b7,
    _ | ⟨b8, rest⟩⟩⟩⟩⟩⟩⟩⟩⟩ <;>
    simp_all [KNXUSBTransferProtocolHeader.from_knx, KNXUSBTransferProtocolHeader.to_knx]

theorem KNXHIDReportBody.from_knx_sixtyone_start {data : Bytes} (h61 : data.length = 61) :
    KNXHIDReportBody.from_knx data false =
      { transfer_protocol_header := some (KNXUSBTransferProtocolHeader.from_knx (data.take 8)),
        transfer_protocol_body := some (KNXUSBTransferProtocolBody.from_knx (data.drop 8)),
        is_valid := (KNXUSBTransferProtocolHeader.from_knx (data.take 8)).is_valid
          && (KNXUSBTransferProtocolBody.from_knx (data.drop 8)).is_valid,
        cont := false } := by
  unfold KNXHIDReportBody.from_knx
  simp [report_body_max_size, h61]

theorem KNXHIDReportHeader.from_knx_ok_valid {data : Bytes} {h : KNXHIDReportHeader}
    (hok : KNXHIDReportHeader.from_knx data = .ok h) (hv : h.is_valid = true) :
    ∃ pi : PacketInfo, h.packet_info = some pi := by
  unfold KNXHIDReportHeader.from_knx at hok
  split at hok
  · injection hok with h1
    rw [← h1] at hv
    simp at hv
  · cases h0 : pyIndex data 0 with
    | error e => rw [h0] at hok; simp [bind, Except.bind] at hok
    | ok rid =>
      rw [h0] at hok
      cases h1 : PacketInfo.from_knx ((data.drop 1).take 1) with
      | error e => rw [h1] at hok; simp [bind, Except.bind] at hok
      | ok pi =>
        rw [h1] at hok
        cases h2 : pyIndex data 2 with
        | error e => rw [h2] at hok; simp [bind, Except.bind] at hok
        | ok dl =>
          rw [h2] at hok
          simp only [bind, Except.bind] at hok
          injection hok with h3
          exact ⟨pi, by rw [← h3]⟩

theorem KNXHIDReportHeader.to_knx_of_valid (h : KNXHIDReportHeader) (pi : PacketInfo)
    (hv : h.is_valid = true) (hpi : h.packet_info = some pi) :
    h.to_knx = .ok ([h.report_id] ++ pack1s pi.to_knx ++ [h.data_length]) := by
  unfold KNXHIDReportHeader.to_knx
  rw [hv, hpi]
  rfl

theorem KNXHIDReportBody.from_data_start (pid : ProtocolID) (emi : EMIID) (payload : Bytes) :
    KNXHIDReportBody.from_data
        { protocol_id := pid, emi_id := emi, emi_data := payload, cont := false } =
      { transfer_protocol_header := some
          { protocol_version := 0, header_length := 8, body_length := payload.length,
            protocol_id := some pid, emi_id := some emi, manufacturer_code := 0,
            is_valid := true },
        transfer_protocol_body := some
          { data := payload, is_valid := decide (payload.length ≤ 53) },
        is_valid := true && decide (payload.length ≤ 53), cont := false } := rfl

theorem KNXHIDFrame.from_data_start_to_knx (p : PacketInfo) (pid : ProtocolID) (emi : EMIID)
    (payload : Bytes) (hlen : payload.length ≤ 53) :
    (KNXHIDFrame.from_data
        { packet_info := p,
          hid_report_body_data :=
            { protocol_id := pid, emi_id := emi, emi_data := payload, cont := false } }).to_knx
      = .ok ([1] ++ pack1s p.to_knx ++ [8 + payload.length]
             ++ ([0, 8, 0, payload.length, pid.value, emi.value, 0, 0]
                 ++ (payload ++ List.replicate (53 - payload.length) 0))) := by
  have hdl : 8 + payload.length ≤ max_expected_data_length := by
    simp only [max_expected_data_length]; omega
  have hdiv : payload.length / 256 = 0 := Nat.div_eq_of_lt (by omega)
  have hmod : payload.length % 256 = payload.length := Nat.mod_eq_of_lt (by omega)
  unfold KNXHIDFrame.from_data
  rw [KNXHIDReportBody.from_data_start]
  unfold KNXHIDFrame.to_knx KNXHIDReportHeader.from_data
  simp only [KNXHIDReportBody.length, KNXUSBTransferProtocolBody.length, hdl, if_true,
    if_pos hdl]
  unfold KNXHIDReportHeader.to_knx KNXHIDReportBody.to_knx
  simp only [if_pos rfl]
  unfold KNXUSBTransferProtocolHeader.to_knx KNXUSBTransferProtocolBody.to_knx
    KNXUSBTransferProtocolBody.max_size
  simp [hdiv, hmod, bind, Except.bind]

/-- C7 counterexample: a frame constructed with `partial = true` can be
valid yet encode to only the 3 header bytes, because
`KNXHIDReportBody.to_knx` emits nothing unless both the transfer protocol
header and body are present, and a partial body never has the header. -/
theorem C7_length_invariant_cex :
    (KNXHIDFrame.from_data
      { packet_info := { sequence_number := some .first_packet, packet_type := some .all_data },
        hid_report_body_data :=
          { protocol_id := .knx_tunnel, emi_id := .emi1,
            emi_data := [170], cont := true } }).is_valid = true ∧
    (KNXHIDFrame.from_data
      { packet_info := { sequence_number := some .first_packet, packet_type := some .all_data },
        hid_report_body_data :=
          { protocol_id := .knx_tunnel, emi_id := .emi1,
            emi_data := [170], cont := true } }).to_knx = .ok [1, 19, 0] :=
  ⟨rfl, rfl⟩

/-- C7 as amended: every report body built by either constructor is, when
valid, of length between 0 and 61; and every valid frame built with
`partial = false` — by construction or by decoding — encodes to exactly
64 bytes.  (A valid partial frame instead encodes to the 3 header bytes
only, as the counterexample shows.) -/
theorem C7_length_invariant_amended :
    (∀ d : KNXHIDReportBodyData,
      (KNXHIDReportBody.from_data d).is_valid = true →
      (KNXHIDReportBody.from_data d).length ≤ 61) ∧
    (∀ (data : Bytes) (cont : Bool),
      (KNXHIDReportBody.from_knx data cont).is_valid = true →
      (KNXHIDReportBody.from_knx data cont).length ≤ 61) ∧
    (∀ fd : KNXHIDFrameData,
      fd.hid_report_body_data.cont = false →
      (KNXHIDFrame.from_data fd).is_valid = true →
      ∃ enc : Bytes, (KNXHIDFrame.from_data fd).to_knx = .ok enc ∧ enc.length = 64) ∧
    (∀ (data : Bytes) (f : KNXHIDFrame),
      KNXHIDFrame.from_knx data false = .ok f → f.is_valid = true →
      ∃ enc : Bytes, f.to_knx = .ok enc ∧ enc.length = 64) := by
  refine ⟨?_, ?_, ?_, ?_⟩
  · rintro ⟨pid, emi, payload, cont⟩ hv
    cases cont with
    | true =>
      simp [KNXHIDReportBody.from_data, KNXHIDReportBody.length]
    | false =>
      rw [KNXHIDReportBody.from_data_start] at hv ⊢
      simp only [Bool.true_and, decide_eq_true_eq] at hv
      simp only [KNXHIDReportBody.length, KNXUSBTransferProtocolBody.length]
      omega
  · intro data cont hv
    by_cases h61 : data.length = 61
    · cases cont with
      | true =>
        unfold KNXHIDReportBody.from_knx
        simp [report_body_max_size, h61, KNXHIDReportBody.length,
          KNXUSBTransferProtocolBody.from_knx, KNXUSBTransferProtocolBody.length]
      | false =>
        rw [KNXHIDReportBody.from_knx_sixtyone_start h61] at hv ⊢
        simp only [Bool.and_eq_true] at hv
        obtain ⟨hth, htb⟩ := hv
        have h8 := (KNXUSBTransferProtocolHeader.from_knx_valid_shape _ hth).1
        simp only [KNXHIDReportBody.length, KNXUSBTransferProtocolBody.from_knx,
          KNXUSBTransferProtocolBody.length, h8, List.length_drop, h61]
        omega
    · rw [KNXHIDReportBody.from_knx_wrong_length h61] at hv
      simp at hv
  · rintro ⟨p, ⟨pid, emi, payload, cont⟩⟩ hcont hv
    simp only at hcont
    subst hcont
    have hL : payload.length ≤ 53 := by
      unfold KNXHIDFrame.from_data at hv
      rw [KNXHIDReportBody.from_data_start] at hv
      simp only [Bool.if_false_left, Bool.if_false_right, if_neg, Bool.false_eq_true,
        if_false, Bool.and_eq_true, Bool.true_and, decide_eq_true_eq] at hv
      exact hv.2
    refine ⟨_, KNXHIDFrame.from_data_start_to_knx p pid emi payload hL, ?_⟩
    simp only [List.length_append, List.length_cons, List.length_nil, pack1s_length,
      List.length_replicate]
    omega
  · intro data f hok hv
    unfold KNXHIDFrame.from_knx at hok
    cases hh : KNXHIDReportHeader.from_knx (data.take 3) with
    | error e => rw [hh] at hok; simp [bind, Except.bind] at hok
    | ok hdr =>
      rw [hh] at hok
      simp only [bind, Except.bind] at hok
      injection hok with h1
      subst h1
      simp only [Bool.and_eq_true] at hv
      obtain ⟨hv1, hv2⟩ := hv
      obtain ⟨pi, hpi⟩ := KNXHIDReportHeader.from_knx_ok_valid hh hv1
      have h61 : (data.drop 3).length = 61 := by
        by_contra hne
        rw [KNXHIDReportBody.from_knx_wrong_length hne] at hv2
        simp at hv2
      rw [KNXHIDReportBody.from_knx_sixtyone_start h61] at hv2 ⊢
      simp only [Bool.and_eq_true] at hv2
      obtain ⟨hth, htb⟩ := hv2
      have hthlen := (KNXUSBTransferProtocolHeader.from_knx_valid_shape _ hth).2
      have h53 : ((data.drop 3).drop 8).length = 53 := by
        simp only [List.length_drop] at h61 ⊢
        omega
      have htblen : (KNXUSBTransferProtocolBody.to_knx
          (KNXUSBTransferProtocolBody.from_knx ((data.drop 3).drop 8)) false).length = 53 := by
        rw [KNXUSBTransferProtocolBody.to_knx_length_of_le]
        · rfl
        · show ((data.drop 3).drop 8).length ≤ KNXUSBTransferProtocolBody.max_size false
          rw [h53]
          decide
      unfold KNXHIDFrame.to_knx
      dsimp only
      rw [KNXHIDReportHeader.to_knx_of_valid hdr pi hv1 hpi]
      simp only [bind, Except.bind]
      refine ⟨_, rfl, ?_⟩
      simp only [KNXHIDReportBody.to_knx, List.length_append, List.length_cons,
        List.length_nil, pack1s_length, hthlen, htblen]

theorem C7_length_invariant_amended_witness :
    (KNXHIDFrameData.mk
        { sequence_number := some .first_packet, packet_type := some .all_data }
        { protocol_id := .knx_tunnel, emi_id := .emi1,
          emi_data := List.replicate 10 170, cont := false }).hid_report_body_data.cont
      = false ∧
    (KNXHIDFrame.from_data
      (KNXHIDFrameData.mk
        { sequence_number := some .first_packet, packet_type := some .all_data }
        { protocol_id := .knx_tunnel, emi_id := .emi1,
          emi_data := List.replicate 10 170, cont := false })).is_valid = true ∧
    ∃ enc : Bytes,
      (KNXHIDFrame.from_data
        (KNXHIDFrameData.mk
          { sequence_number := some .first_packet, packet_type := some .all_data }
          { protocol_id := .knx_tunnel, emi_id := .emi1,
            emi_data := List.replicate 10 170, cont := false })).to_knx = .ok enc ∧
      enc.length = 64 :=
  ⟨rfl, by decide,
   C7_length_invariant_amended.2.2.1
     (KNXHIDFrameData.mk
       { sequence_number := some .first_packet, packet_type := some .all_data }
       { protocol_id := .knx_tunnel, emi_id := .emi1,
         emi_data := List.replicate 10 170, cont := false })
     rfl (by decide)⟩

/-- C1: round trip.  For every frame constructed via `from_data` with
`partial = false` and an opaque payload of at most 53 bytes that is valid,
decoding its encoding and re-encoding the decoded frame yields the same
byte string. -/
theorem C1_round_trip (d : PacketInfoData) (pid : ProtocolID) (emi : EMIID) (payload : Bytes)
    (hlen : payload.length ≤ 53) (hwf : ∀ x ∈ payload, x < 256)
    (hvalid : (KNXHIDFrame.from_data
        { packet_info := PacketInfo.from_data d,
          hid_report_body_data :=
            { protocol_id := pid, emi_id := emi, emi_data := payload, cont := false } }).is_valid
        = true) :
    ∃ (enc : Bytes) (f2 : KNXHIDFrame),
      (KNXHIDFrame.from_data
        { packet_info := PacketInfo.from_data d,
          hid_report_body_data :=
            { protocol_id := pid, emi_id := emi, emi_data := payload, cont := false } }).to_knx
        = .ok enc ∧
      KNXHIDFrame.from_knx enc false = .ok f2 ∧
      f2.to_knx = .ok enc := by
  obtain ⟨s, t⟩ := d
  have hpk : (PacketInfo.from_data ⟨s, t⟩).to_knx = [s.value * 16 + t.value] := by
    simp [PacketInfo.from_data, PacketInfo.to_knx, seq_value_bne_zero,
      pt_value_bne_zero]
  have henc := KNXHIDFrame.from_data_start_to_knx (PacketInfo.from_data ⟨s, t⟩) pid emi payload hlen
  rw [hpk] at henc
  have hwire : ([1] ++ pack1s [s.value * 16 + t.value] ++ [8 + payload.length]
      ++ ([0, 8, 0, payload.length, pid.value, emi.value, 0, 0]
          ++ (payload ++ List.replicate (53 - payload.length) 0)))
      = 1 :: (s.value * 16 + t.value) :: (8 + payload.length) :: 0 :: 8 :: 0
        :: payload.length :: pid.value :: emi.value :: 0 :: 0
        :: (payload ++ List.replicate (53 - payload.length) 0) := rfl
  rw [hwire] at henc
  have htail53 : (payload ++ List.replicate (53 - payload.length) 0).length = 53 := by
    rw [List.length_append, List.length_replicate]
    omega
  have hs : SequenceNumber.ofValue ((s.value * 16 + t.value) / 16) = some s := by
    rw [nibble_div]; exact seq_ofValue_value s
  have ht : PacketType.ofValue ((s.value * 16 + t.value) % 16) = some t := by
    rw [nibble_mod]; exact pt_ofValue_value t
  refine ⟨_,
    { report_header := some
        { report_id := 1,
          packet_info := some { sequence_number := some s, packet_type := some t },
          data_length := 8 + payload.length, is_valid := true },
      report_body := some
        { transfer_protocol_header := some (KNXUSBTransferProtocolHeader.from_knx
            [0, 8, 0, payload.length, pid.value, emi.value, 0, 0]),
          transfer_protocol_body := some (KNXUSBTransferProtocolBody.from_knx
            (payload ++ List.replicate (53 - payload.length) 0)),
          is_valid := (KNXUSBTransferProtocolHeader.from_knx
              [0, 8, 0, payload.length, pid.value, emi.value, 0, 0]).is_valid
            && (KNXUSBTransferProtocolBody.from_knx
              (payload ++ List.replicate (53 - payload.length) 0)).is_valid,
          cont := false },
      is_valid := true
        && ((KNXUSBTransferProtocolHeader.from_knx
              [0, 8, 0, payload.length, pid.value, emi.value, 0, 0]).is_valid
            && (KNXUSBTransferProtocolBody.from_knx
              (payload ++ List.replicate (53 - payload.length) 0)).is_valid),
      cont := false }, henc, ?_, ?_⟩
  · unfold KNXHIDFrame.from_knx
    rw [show List.take 3 (1 :: (s.value * 16 + t.value) :: (8 + payload.length) :: 0 :: 8 :: 0
        :: payload.length :: pid.value :: emi.value :: 0 :: 0
        :: (payload ++ List.replicate (53 - payload.length) 0)) = [1, s.value * 16 + t.value,
        8 + payload.length] from rfl]
    rw [show List.drop 3 (1 :: (s.value * 16 + t.value) :: (8 + payload.length) :: 0 :: 8 :: 0
        :: payload.length :: pid.value :: emi.value :: 0 :: 0
        :: (payload ++ List.replicate (53 - payload.length) 0)) = 0 :: 8 :: 0
        :: payload.length :: pid.value :: emi.value :: 0 :: 0
        :: (payload ++ List.replicate (53 - payload.length) 0) from rfl]
    rw [KNXHIDReportHeader.from_knx_three hs ht]
    have h61 : (0 :: 8 :: 0 :: payload.length :: pid.value :: emi.value :: 0 :: 0
        :: (payload ++ List.replicate (53 - payload.length) 0)).length = 61 := by
      simp only [List.length_cons, htail53]
    rw [KNXHIDReportBody.from_knx_sixtyone_start h61]
    rw [show List.take 8 (0 :: 8 :: 0 :: payload.length :: pid.value :: emi.value :: 0 :: 0
        :: (payload ++ List.replicate (53 - payload.length) 0)) = [0, 8, 0, payload.length,
        pid.value, emi.value, 0, 0] from rfl]
    rw [show List.drop 8 (0 :: 8 :: 0 :: payload.length :: pid.value :: emi.value :: 0 :: 0
        :: (payload ++ List.replicate (53 - payload.length) 0))
        = payload ++ List.replicate (53 - payload.length) 0 from rfl]
    rfl
  · have hdiv : payload.length / 256 = 0 := Nat.div_eq_of_lt (by omega)
    have hmod : payload.length % 256 = payload.length := Nat.mod_eq_of_lt (by omega)
    unfold KNXHIDFrame.to_knx
    dsimp only
    rw [KNXHIDReportHeader.to_knx_of_valid _ { sequence_number := some s, packet_type := some t }
      rfl rfl]
    simp only [bind, Except.bind]
    have hpk2 : (PacketInfo.mk (some s) (some t)).to_knx = [s.value * 16 + t.value] := by
      simp [PacketInfo.to_knx, seq_value_bne_zero, pt_value_bne_zero]
    simp [KNXHIDReportBody.to_knx, KNXUSBTransferProtocolHeader.from_knx,
      KNXUSBTransferProtocolHeader.to_knx, KNXUSBTransferProtocolBody.from_knx,
      KNXUSBTransferProtocolBody.to_knx, KNXUSBTransferProtocolBody.max_size,
      pid_ofValue_value, emi_ofValue_value, hpk2, htail53, hdiv, hmod, pack1s]


theorem C1_round_trip_witness :
    (List.replicate 10 170 : Bytes).length ≤ 53 ∧
    (∀ x ∈ (List.replicate 10 170 : Bytes), x < 256) ∧
    (KNXHIDFrame.from_data
      { packet_info := PacketInfo.from_data ⟨.first_packet, .all_data⟩,
        hid_report_body_data :=
          { protocol_id := .knx_tunnel, emi_id := .emi1,
            emi_data := List.replicate 10 170, cont := false } }).is_valid = true ∧
    ∃ (enc : Bytes) (f2 : KNXHIDFrame),
      (KNXHIDFrame.from_data
        { packet_info := PacketInfo.from_data ⟨.first_packet, .all_data⟩,
          hid_report_body_data :=
            { protocol_id := .knx_tunnel, emi_id := .emi1,
              emi_data := List.replicate 10 170, cont := false } }).to_knx = .ok enc ∧
      KNXHIDFrame.from_knx enc false = .ok f2 ∧
      f2.to_knx = .ok enc :=
  ⟨by decide, by decide, by decide,
   C1_round_trip ⟨.first_packet, .all_data⟩ .knx_tunnel .emi1 (List.replicate 10 170)
     (by decide) (by decide) (by decide)⟩
